import Mathlib

/-!
Shallow embedding of the annotation core of `src/app.py` (Genetic-Trail-Matcher):
the variant-record extractor `extract_variants` (lines 49-60) and the annotation
resolver `annotate_variant` (lines 62-144), together with the Python value and
JSON-navigation semantics they rely on.

Python dictionaries coming from `r.json()` are modelled as association lists with
string keys (JSON object keys are always strings, so integer-keyed dictionaries
are unreachable here); JSON numbers are modelled as integers (no claim depends on
float-valued JSON leaves).  Operations that can raise in Python return
`Except Unit`; a bare `except: pass` block is modelled by collapsing `.error` to
`none`.
-/

namespace GeneticTrail

/-- A Python/JSON value as produced by `r.json()`. -/
inductive PyVal where
  | none : PyVal
  | bool : Bool → PyVal
  | int : Int → PyVal
  | str : String → PyVal
  | list : List PyVal → PyVal
  | dict : List (String × PyVal) → PyVal

/-- Dictionary key lookup (keys of a JSON object are distinct). -/
def dGet (m : List (String × PyVal)) (k : String) : Option PyVal :=
  match m with
  | [] => Option.none
  | (k', v) :: rest => if k' = k then Option.some v else dGet rest k

/-- Python truthiness (`bool(v)`). -/
def pyTruthy : PyVal → Bool
  | .none => false
  | .bool b => b
  | .int n => n != 0
  | .str s => s != ""
  | .list xs => !xs.isEmpty
  | .dict m => !m.isEmpty

/-- Python `a or b`: `a` when truthy, else `b`. -/
def pyOr (a b : PyVal) : PyVal := if pyTruthy a then a else b

/-- Python `v.get(k, d)`: raises `AttributeError` unless `v` is a dict. -/
def pyGetD (v : PyVal) (k : String) (d : PyVal) : Except Unit PyVal :=
  match v with
  | .dict m => .ok ((dGet m k).getD d)
  | _ => .error ()

/-- Python `v[i]` for a non-negative integer index: list indexing raises
`IndexError` out of bounds; string indexing yields a one-character string;
anything else raises (`TypeError`, or `KeyError` on a string-keyed dict). -/
def pyIndex (v : PyVal) (i : Nat) : Except Unit PyVal :=
  match v with
  | .list xs =>
      match xs.get? i with
      | Option.some x => .ok x
      | Option.none => .error ()
  | .str s =>
      match s.toList.get? i with
      | Option.some c => .ok (.str (String.mk [c]))
      | Option.none => .error ()
  | _ => .error ()

/-- Python `v[k]` for a string key: raises `KeyError` when absent, raises unless
`v` is a dict. -/
def pyKey (v : PyVal) (k : String) : Except Unit PyVal :=
  match v with
  | .dict m =>
      match dGet m k with
      | Option.some x => .ok x
      | Option.none => .error ()
  | _ => .error ()

/-- Substring test, used for Python `k in s` on strings. -/
def strHas (s pat : String) : Bool := 2 ≤ (s.splitOn pat).length

/-- Python `k in v` for a string `k`: key membership on dicts, element
membership on lists (a string equals only a string), substring test on strings;
raises `TypeError` otherwise. -/
def pyContains (v : PyVal) (k : String) : Except Unit Bool :=
  match v with
  | .dict m => .ok (m.any (fun p => p.1 == k))
  | .list xs => .ok (xs.any (fun x => match x with | .str s => s == k | _ => false))
  | .str s => .ok (strHas s k)
  | _ => .error ()

/-- Python `str(v)` as used in f-string interpolation.  Scalars are rendered
exactly; the repr of containers is abstracted (no reachable code path in the
claims interpolates a container). -/
def pyStrOf : PyVal → String
  | .str s => s
  | .int n => toString n
  | .bool true => "True"
  | .bool false => "False"
  | .none => "None"
  | .list _ => "<list repr>"
  | .dict _ => "<dict repr>"

/-- `v.isList`, i.e. Python `isinstance(v, list)`. -/
def PyVal.isList : PyVal → Bool
  | .list _ => true
  | _ => false

/-! ## The extractor (`extract_variants`, app.py lines 49-60) -/

/-- One parsed variant-call record (the dict built on app.py line 59). -/
structure VariantRecord where
  chrom : String
  pos : Int
  rsid : String
  ref : String
  alt : String
  deriving Repr, DecidableEq

/-- Characters removed by Python `str.strip()` with no argument. -/
def isPySpace (c : Char) : Bool :=
  c = ' ' || c = '\t' || c = '\n' || c = '\x0d' || c = '\x0b' || c = '\x0c'

/-- Python `line.strip()`. -/
def pyStrip (s : String) : String :=
  String.mk (((s.toList.dropWhile isPySpace).reverse.dropWhile isPySpace).reverse)

/-- Numeric value of a digit string. -/
def digitsVal (l : List Char) : Nat :=
  l.foldl (fun a c => a * 10 + (c.toNat - '0'.toNat)) 0

/-- Python `int(s)`: surrounding whitespace stripped, optional sign, then a
non-empty run of decimal digits; raises `ValueError` otherwise.  (Underscore
digit separators are not modelled; no claim involves them.) -/
def pyInt (s : String) : Except Unit Int :=
  let t := (pyStrip s).toList
  let core : List Char × Int :=
    match t with
    | '+' :: rest => (rest, 1)
    | '-' :: rest => (rest, -1)
    | l => (l, 1)
  if !core.1.isEmpty && core.1.all Char.isDigit then
    .ok (core.2 * (digitsVal core.1 : Int))
  else
    .error ()

/-- Split a character list at every occurrence of `c`, keeping empty pieces
(Python `str.split` with an explicit single-character separator). -/
def splitCh (c : Char) : List Char → List (List Char)
  | [] => [[]]
  | x :: rest =>
      let r := splitCh c rest
      if x = c then [] :: r
      else
        match r with
        | [] => [[x]]
        | h :: t => (x :: h) :: t

/-- `s.split(c)` for a single-character separator `c`. -/
def pySplitCh (s : String) (c : Char) : List String :=
  (splitCh c s.toList).map String.mk

/-- Python `line.startswith(c)` for a one-character prefix. -/
def pyStartsWith (s : String) (c : Char) : Bool :=
  match s.toList with
  | x :: _ => x = c
  | [] => false

/-- The fields of one line: `line.strip().split('\t')` (app.py line 55). -/
def lineFields (line : String) : List String := pySplitCh (pyStrip line) '\t'

/-- A line survives the two `continue` guards (app.py lines 53-57): it does not
start with the metadata marker and has at least 5 tab-separated fields. -/
def keepLine (line : String) : Bool :=
  !pyStartsWith line '#' && 5 ≤ (lineFields line).length

/-- The record built from a kept line (app.py lines 58-59): the first five tab
fields positionally, with the position parsed by `int(...)`, which raises on a
non-numeric field.  (`getD _ ""` never takes its default on a kept line, whose
field count is at least 5.) -/
def lineRecord (line : String) : Except Unit VariantRecord := do
  let p ← pyInt ((lineFields line).getD 1 "")
  .ok { chrom := (lineFields line).getD 0 "", pos := p,
        rsid := (lineFields line).getD 2 "",
        ref := (lineFields line).getD 3 "", alt := (lineFields line).getD 4 "" }

/-- The extractor loop over the lines of the file: an exception raised on any
line propagates, discarding the whole accumulated list (Python semantics of an
uncaught `ValueError` inside the loop). -/
def extractLines : List String → Except Unit (List VariantRecord)
  | [] => .ok []
  | l :: ls =>
      if keepLine l then do
        let r ← lineRecord l
        let rs ← extractLines ls
        .ok (r :: rs)
      else extractLines ls

/-- `extract_variants` (app.py lines 49-60) on the full text of the file,
iterated line by line. -/
def extract_variants (text : String) : Except Unit (List VariantRecord) :=
  extractLines (pySplitCh text '\n')

/-! ## The resolver (`annotate_variant`, app.py lines 62-144) -/

/-- One annotation record: the nine-key dict every branch of `annotate_variant`
returns.  `gene`, `clinical_significance` and `condition` hold arbitrary JSON
values in the Python code, so they are `PyVal` here; the links and the source
name are always strings. -/
structure AnnotationRecord where
  chr : String
  pos : Int
  ref : String
  alt : String
  gene : PyVal
  clinical_significance : PyVal
  condition : PyVal
  link : String
  source : String

/-- Outcome of one `requests.get`: a raised exception (network error, timeout),
or a response with a status code and a body (`Option.none` when `r.json()`
raises on an unparseable body). -/
inductive HttpOutcome where
  | netError : HttpOutcome
  | response : Nat → Option PyVal → HttpOutcome

/-- The behaviour of the three remote services during one resolution: what each
client's single outbound request would come back with. -/
structure ResolverEnv where
  ncbi : HttpOutcome
  mv : HttpOutcome
  ens : HttpOutcome

/-- Left-to-right non-overlapping replacement of `pat` by `repl`, fuelled by
the input length so that it is structural (and hence kernel-evaluable).  For a
non-empty `pat` this is Python `str.replace`; the fuel is never exhausted
because each step consumes at least one character. -/
def replFuel (pat repl : List Char) : Nat → List Char → List Char
  | _, [] => []
  | 0, l => l
  | fuel + 1, c :: rest =>
      if pat.isPrefixOf (c :: rest) then
        repl ++ replFuel pat repl fuel (List.drop (pat.length - 1) rest)
      else c :: replFuel pat repl fuel rest

/-- Python `s.replace(pat, repl)` for a non-empty pattern. -/
def pyReplace (s pat repl : String) : String :=
  String.mk (replFuel pat.toList repl.toList s.toList.length s.toList)

/-- The NCBI endpoint URL (app.py line 71): note `str.replace` removes every
occurrence of `"rs"`, not only a prefix. -/
def ncbiUrl (rsid : String) : String :=
  "https://api.ncbi.nlm.nih.gov/variation/v0/beta/refsnp/" ++ pyReplace rsid "rs" ""

/-- The nested gene lookup of the NCBI branch (app.py line 75): a chain of
`.get` with defaults and `[0]` indexings, written as one stage per navigation
step, outermost first. -/
def chain8 (x : PyVal) : Except Unit PyVal := pyGetD x "variant_base" (.str "NA")

def chain7 (x : PyVal) : Except Unit PyVal := do
  let y ← pyGetD x "spdi" (.dict []); chain8 y

def chain6 (x : PyVal) : Except Unit PyVal := do
  let y ← pyGetD x "allele" (.dict []); chain7 y

def chain5 (x : PyVal) : Except Unit PyVal := do
  let y ← pyIndex x 0; chain6 y

def chain4 (x : PyVal) : Except Unit PyVal := do
  let y ← pyGetD x "alleles" (.list [.dict []]); chain5 y

def chain3 (x : PyVal) : Except Unit PyVal := do
  let y ← pyIndex x 0; chain4 y

def chain2 (x : PyVal) : Except Unit PyVal := do
  let y ← pyGetD x "placements_with_allele" (.list [.dict []]); chain3 y

def ncbiGeneChain (data : PyVal) : Except Unit PyVal := do
  let y ← pyGetD data "primary_snapshot_data" (.dict []); chain2 y

/-- Strict `.get`: the value only when `v` is a dict holding the key. -/
def sGet (v : PyVal) (k : String) : Option PyVal :=
  match v with
  | .dict m => dGet m k
  | _ => Option.none

/-- Strict indexing: `pyIndex` without the exception. -/
def sIdx (v : PyVal) (i : Nat) : Option PyVal := (pyIndex v i).toOption

/-- The same nested path navigated strictly, with no defaults: `Option.some`
exactly when every level of the path is present. -/
def strict8 (x : PyVal) : Option PyVal := sGet x "variant_base"

def strict7 (x : PyVal) : Option PyVal := do
  let y ← sGet x "spdi"; strict8 y

def strict6 (x : PyVal) : Option PyVal := do
  let y ← sGet x "allele"; strict7 y

def strict5 (x : PyVal) : Option PyVal := do
  let y ← sIdx x 0; strict6 y

def strict4 (x : PyVal) : Option PyVal := do
  let y ← sGet x "alleles"; strict5 y

def strict3 (x : PyVal) : Option PyVal := do
  let y ← sIdx x 0; strict4 y

def strict2 (x : PyVal) : Option PyVal := do
  let y ← sGet x "placements_with_allele"; strict3 y

def ncbiStrict (data : PyVal) : Option PyVal := do
  let y ← sGet data "primary_snapshot_data"; strict2 y

/-- The record returned by the NCBI branch (app.py lines 76-86), given the
value of the gene lookup. -/
def ncbiRecord (v : VariantRecord) (gene : PyVal) : AnnotationRecord :=
  { chr := v.chrom, pos := v.pos, ref := v.ref, alt := v.alt,
    gene := pyOr gene (.str "NA"), clinical_significance := .str "NA",
    condition := .str "From NCBI", link := ncbiUrl v.rsid, source := "NCBI" }

/-- The NCBI client (app.py lines 69-88): `except: pass` collapses every raise
to no result; a non-200 status falls out of the `if` to no result. -/
def tryNCBI (v : VariantRecord) (o : HttpOutcome) : Option AnnotationRecord :=
  match o with
  | .netError => Option.none
  | .response s body =>
      if s = 200 then
        match body with
        | Option.some data =>
            match ncbiGeneChain data with
            | .ok g => Option.some (ncbiRecord v g)
            | .error _ => Option.none
        | Option.none => Option.none
      else Option.none

/-- The MyVariant.info endpoint URL (app.py line 92), keyed by the id as
given. -/
def mvUrl (rsid : String) : String := "https://myvariant.info/v1/variant/" ++ rsid

/-- The condition expression of app.py line 105:
`clinical.get('trait', ['Unknown'])[0] if isinstance(clinical.get('trait', []), list) else 'Unknown'`. -/
def mvConditionV (clinical : PyVal) : Except Unit PyVal := do
  let t0 ← pyGetD clinical "trait" (.list [])
  if t0.isList = true then do
    let t1 ← pyGetD clinical "trait" (.list [.str "Unknown"])
    pyIndex t1 0
  else Except.ok (.str "Unknown")

/-- The link expression of app.py line 106: the ClinVar URL templated with
`clinical.get('rcv', [{}])[0].get('accession', '')` when `'rcv' in clinical`,
else the empty string. -/
def mvLinkV (clinical : PyVal) : Except Unit String := do
  let hasRcv ← pyContains clinical "rcv"
  if hasRcv then do
    let r1 ← pyGetD clinical "rcv" (.list [.dict []])
    let r0 ← pyIndex r1 0
    let acc ← pyGetD r0 "accession" (.str "")
    Except.ok ("https://www.ncbi.nlm.nih.gov/clinvar/variation/" ++ pyStrOf acc)
  else Except.ok ""

/-- The field computations of the MyVariant branch (app.py lines 96-107), in
Python evaluation order: gene, then `clinical`, then the dict values
clinical_significance, condition, link.  Any raise aborts the whole branch. -/
def mvPayload (data : PyVal) : Except Unit (PyVal × PyVal × PyVal × String) := do
  let g0 ← pyGetD data "gene" (.dict [])
  let gene ← pyGetD g0 "symbol" (.str "NA")
  let clinical ← pyGetD data "clinvar" (.dict [])
  let clinsig ← pyGetD clinical "clinical_significance" (.str "Not available")
  let condition ← mvConditionV clinical
  let link ← mvLinkV clinical
  .ok (gene, clinsig, condition, link)

/-- The record returned by the MyVariant branch (app.py lines 98-108). -/
def mvRecord (v : VariantRecord) (p : PyVal × PyVal × PyVal × String) :
    AnnotationRecord :=
  { chr := v.chrom, pos := v.pos, ref := v.ref, alt := v.alt,
    gene := p.1, clinical_significance := p.2.1, condition := p.2.2.1,
    link := p.2.2.2, source := "MyVariant.info" }

/-- The MyVariant client (app.py lines 90-110). -/
def tryMV (v : VariantRecord) (o : HttpOutcome) : Option AnnotationRecord :=
  match o with
  | .netError => Option.none
  | .response s body =>
      if s = 200 then
        match body with
        | Option.some data =>
            match mvPayload data with
            | .ok p => Option.some (mvRecord v p)
            | .error _ => Option.none
        | Option.none => Option.none
      else Option.none

/-- The Ensembl endpoint URL (app.py line 114). -/
def ensUrl (v : VariantRecord) : String :=
  "https://rest.ensembl.org/vep/human/region/" ++ v.chrom ++ ":" ++ toString v.pos
    ++ "-" ++ toString v.pos ++ "/" ++ v.ref ++ "/" ++ v.alt
    ++ "?content-type=application/json"

/-- The gene computation of the Ensembl branch (app.py line 118): `'NA'` when
the response is falsy, otherwise a strict `[0]['transcript_consequences'][0]`
navigation with a defaulted final `.get`. -/
def ensGene (data : PyVal) : Except Unit PyVal :=
  if pyTruthy data then do
    let a ← pyIndex data 0
    let b ← pyKey a "transcript_consequences"
    let c ← pyIndex b 0
    pyGetD c "gene_symbol" (.str "NA")
  else pure (.str "NA")

/-- The record returned by the Ensembl branch (app.py lines 119-129). -/
def ensRecord (v : VariantRecord) (gene : PyVal) : AnnotationRecord :=
  { chr := v.chrom, pos := v.pos, ref := v.ref, alt := v.alt,
    gene := gene, clinical_significance := .str "NA",
    condition := .str "From Ensembl", link := ensUrl v, source := "Ensembl" }

/-- The Ensembl client (app.py lines 112-131). -/
def tryEns (v : VariantRecord) (o : HttpOutcome) : Option AnnotationRecord :=
  match o with
  | .netError => Option.none
  | .response s body =>
      if s = 200 then
        match body with
        | Option.some data =>
            match ensGene data with
            | .ok g => Option.some (ensRecord v g)
            | .error _ => Option.none
        | Option.none => Option.none
      else Option.none

/-- The synthesized UCSC fallback record (app.py lines 133-144); no network
call is made for it. -/
def ucscRecord (v : VariantRecord) : AnnotationRecord :=
  { chr := v.chrom, pos := v.pos, ref := v.ref, alt := v.alt,
    gene := .str "Unknown", clinical_significance := .str "Not available",
    condition := .str "No data",
    link := "https://genome.ucsc.edu/cgi-bin/hgTracks?db=hg38&position=chr"
      ++ v.chrom ++ ":" ++ toString v.pos,
    source := "UCSC" }

/-- `annotate_variant` with an observation of which clients issued their
outbound request: each `try` block runs (and hence calls its service) exactly
when every earlier block produced no result; the UCSC fallback is pure. -/
def annotateRun (v : VariantRecord) (env : ResolverEnv) :
    AnnotationRecord × List String :=
  match tryNCBI v env.ncbi with
  | Option.some r => (r, ["NCBI"])
  | Option.none =>
      match tryMV v env.mv with
      | Option.some r => (r, ["NCBI", "MyVariant.info"])
      | Option.none =>
          match tryEns v env.ens with
          | Option.some r => (r, ["NCBI", "MyVariant.info", "Ensembl"])
          | Option.none => (ucscRecord v, ["NCBI", "MyVariant.info", "Ensembl"])

/-- `annotate_variant` (app.py lines 62-144): the record the resolver returns. -/
def annotate_variant (v : VariantRecord) (env : ResolverEnv) : AnnotationRecord :=
  (annotateRun v env).1

/-- The clients consulted (request issued) while resolving `v` under `env`. -/
def consulted (v : VariantRecord) (env : ResolverEnv) : List String :=
  (annotateRun v env).2

/-! ## Derived notions used to state the claims -/

/-- What `data.get('gene', {}).get('symbol', 'NA')` (app.py line 96) evaluates
to on a top-level dict `m`, when it does not raise: `"NA"` when `gene` is
absent, the defaulted `symbol` lookup when `gene` is a dict, no value (an
`AttributeError`) when `gene` is present but not a dict. -/
def mvGeneSym (m : List (String × PyVal)) : Option PyVal :=
  match dGet m "gene" with
  | Option.none => Option.some (.str "NA")
  | Option.some (.dict gm) => Option.some ((dGet gm "symbol").getD (.str "NA"))
  | Option.some _ => Option.none

/-- The entries of `clinical = data.get('clinvar', {})` (app.py line 97) when
that value is a dict: `[]` when `clinvar` is absent, its entries when it is a
dict, no value when it is present but not a dict. -/
def mvClinical (m : List (String × PyVal)) : Option (List (String × PyVal)) :=
  match dGet m "clinvar" with
  | Option.none => Option.some []
  | Option.some (.dict cm) => Option.some cm
  | Option.some _ => Option.none

/-- The data-model invariant claimed for extracted records: position at least
1, chromosome and both alleles non-empty. -/
def variantInvariant (r : VariantRecord) : Prop :=
  1 ≤ r.pos ∧ r.chrom ≠ "" ∧ r.ref ≠ "" ∧ r.alt ≠ ""

/-- A call-format line whose relevant fields satisfy the upstream-format
conditions: a position field that, if numeric, is at least 1, and non-empty
chromosome / reference / alternate fields. -/
def goodLine (l : String) : Bool :=
  (match pyInt ((lineFields l).getD 1 "") with
   | .ok p => decide (1 ≤ p)
   | .error _ => true)
  && ((lineFields l).getD 0 "" != "") && ((lineFields l).getD 3 "" != "")
  && ((lineFields l).getD 4 "" != "")

/-- A sample variant record used to instantiate proved theorems. -/
def vSample : VariantRecord :=
  { chrom := "1", pos := 12345, rsid := "rs123", ref := "A", alt := "G" }

/-- An environment in which every remote service is unreachable. -/
def envAllFail : ResolverEnv := { ncbi := .netError, mv := .netError, ens := .netError }

/-- The NCBI response body of the specification's worked example. -/
def ncbiExampleBody : PyVal :=
  .dict [("primary_snapshot_data", .dict [("placements_with_allele",
    .list [.dict [("alleles", .list [.dict [("allele",
      .dict [("spdi", .dict [("variant_base", .str "G")])])]])]])])]

/-- Whether a line parses to a record. -/
def lineOk (l : String) : Bool :=
  match lineRecord l with
  | .ok _ => true
  | .error _ => false

/-- An environment in which only the NCBI service answers (with an empty JSON
object). -/
def envNCBIOnly : ResolverEnv :=
  { ncbi := .response 200 (Option.some (.dict [])), mv := .netError, ens := .netError }

/-- An environment in which NCBI answers with the specification's example
body. -/
def envNCBIExample : ResolverEnv :=
  { ncbi := .response 200 (Option.some ncbiExampleBody), mv := .netError, ens := .netError }

/-- A variant whose id contains `"rs"` twice, separating the prefix-strip
reading from the replace-all the code performs. -/
def vRsTwice : VariantRecord :=
  { chrom := "1", pos := 5, rsid := "rs1rs2", ref := "A", alt := "G" }

/-- An NCBI body carrying the full nested path with an empty (falsy) variant
base. -/
def ncbiEmptyBaseBody : PyVal :=
  .dict [("primary_snapshot_data", .dict [("placements_with_allele",
    .list [.dict [("alleles", .list [.dict [("allele",
      .dict [("spdi", .dict [("variant_base", .str "")])])]])]])])]

/-- An environment in which NCBI answers with `ncbiEmptyBaseBody`. -/
def envNCBIEmptyBase : ResolverEnv :=
  { ncbi := .response 200 (Option.some ncbiEmptyBaseBody), mv := .netError, ens := .netError }

/-- The entries of the MyVariant body of the specification's worked example. -/
def mvExampleEntries : List (String × PyVal) :=
  [("gene", .dict [("symbol", .str "BRCA1")]),
   ("clinvar", .dict [("clinical_significance", .str "Pathogenic"),
     ("trait", .list [.str "Breast Cancer"]),
     ("rcv", .list [.dict [("accession", .str "RCV000048420")]])])]

/-- The `clinvar` entries of `mvExampleEntries`. -/
def mvClinvarEntries : List (String × PyVal) :=
  [("clinical_significance", .str "Pathogenic"),
   ("trait", .list [.str "Breast Cancer"]),
   ("rcv", .list [.dict [("accession", .str "RCV000048420")]])]

/-- An environment in which NCBI is down and MyVariant answers with the worked
example. -/
def envMVExample : ResolverEnv :=
  { ncbi := .netError, mv := .response 200 (Option.some (.dict mvExampleEntries)),
    ens := .netError }

/-- A MyVariant body whose `clinvar.trait` is present but an empty list. -/
def mvEmptyTraitBody : PyVal := .dict [("clinvar", .dict [("trait", .list [])])]

/-- An environment in which NCBI and Ensembl are down and MyVariant answers
200 with `mvEmptyTraitBody`. -/
def envMVEmptyTrait : ResolverEnv :=
  { ncbi := .netError, mv := .response 200 (Option.some mvEmptyTraitBody),
    ens := .netError }

/-! ## Helper lemmas -/

@[simp] theorem ok_bind {α β : Type} (a : α) (f : α → Except Unit β) :
    (Except.ok a >>= f : Except Unit β) = f a := rfl

@[simp] theorem error_bind {α β : Type} (e : Unit) (f : α → Except Unit β) :
    ((Except.error e : Except Unit α) >>= f) = .error e := rfl

theorem pyGetD_ok_cases {v : PyVal} {k : String} {d w : PyVal}
    (h : pyGetD v k d = .ok w) :
    sGet v k = Option.some w ∨ (sGet v k = Option.none ∧ w = d) := by
  cases v with
  | dict m =>
      simp only [pyGetD] at h
      cases hm : dGet m k with
      | none =>
          refine Or.inr ⟨by simp [sGet, hm], ?_⟩
          rw [hm] at h
          exact (Except.ok.inj h).symm
      | some x =>
          refine Or.inl ?_
          rw [hm] at h
          have hx : x = w := by simpa using Except.ok.inj h
          simp [sGet, hm, hx]
  | none => exact absurd h (by simp [pyGetD])
  | bool b => exact absurd h (by simp [pyGetD])
  | int n => exact absurd h (by simp [pyGetD])
  | str s => exact absurd h (by simp [pyGetD])
  | list xs => exact absurd h (by simp [pyGetD])

theorem pyIndex_ok_sIdx {v : PyVal} {i : Nat} {w : PyVal}
    (h : pyIndex v i = .ok w) : sIdx v i = Option.some w := by
  simp [sIdx, h, Except.toOption]

theorem strictStep8 {x w : PyVal} (h : chain8 x = .ok w) :
    strict8 x = Option.some w ∨ (strict8 x = Option.none ∧ w = .str "NA") :=
  pyGetD_ok_cases h

theorem strictStep7 {x w : PyVal} (h : chain7 x = .ok w) :
    strict7 x = Option.some w ∨ (strict7 x = Option.none ∧ w = .str "NA") := by
  unfold chain7 at h
  cases h1 : pyGetD x "spdi" (.dict []) with
  | error e => rw [h1] at h; simp at h
  | ok y =>
      rw [h1, ok_bind] at h
      rcases pyGetD_ok_cases h1 with hp | ⟨hp, hd⟩
      · rcases strictStep8 h with h8 | ⟨h8, hw⟩
        · exact Or.inl (by simp [strict7, hp, h8])
        · exact Or.inr ⟨by simp [strict7, hp, h8], hw⟩
      · subst hd
        rw [show chain8 (.dict []) = Except.ok (PyVal.str "NA") from rfl] at h
        exact Or.inr ⟨by simp [strict7, hp], (Except.ok.inj h).symm⟩

theorem strictStep6 {x w : PyVal} (h : chain6 x = .ok w) :
    strict6 x = Option.some w ∨ (strict6 x = Option.none ∧ w = .str "NA") := by
  unfold chain6 at h
  cases h1 : pyGetD x "allele" (.dict []) with
  | error e => rw [h1] at h; simp at h
  | ok y =>
      rw [h1, ok_bind] at h
      rcases pyGetD_ok_cases h1 with hp | ⟨hp, hd⟩
      · rcases strictStep7 h with h7 | ⟨h7, hw⟩
        · exact Or.inl (by simp [strict6, hp, h7])
        · exact Or.inr ⟨by simp [strict6, hp, h7], hw⟩
      · subst hd
        rw [show chain7 (.dict []) = Except.ok (PyVal.str "NA") from rfl] at h
        exact Or.inr ⟨by simp [strict6, hp], (Except.ok.inj h).symm⟩

theorem strictStep5 {x w : PyVal} (h : chain5 x = .ok w) :
    strict5 x = Option.some w ∨ (strict5 x = Option.none ∧ w = .str "NA") := by
  unfold chain5 at h
  cases h1 : pyIndex x 0 with
  | error e => rw [h1] at h; simp at h
  | ok y =>
      rw [h1, ok_bind] at h
      rcases strictStep6 h with h6 | ⟨h6, hw⟩
      · exact Or.inl (by simp [strict5, pyIndex_ok_sIdx h1, h6])
      · exact Or.inr ⟨by simp [strict5, pyIndex_ok_sIdx h1, h6], hw⟩

theorem strictStep4 {x w : PyVal} (h : chain4 x = .ok w) :
    strict4 x = Option.some w ∨ (strict4 x = Option.none ∧ w = .str "NA") := by
  unfold chain4 at h
  cases h1 : pyGetD x "alleles" (.list [.dict []]) with
  | error e => rw [h1] at h; simp at h
  | ok y =>
      rw [h1, ok_bind] at h
      rcases pyGetD_ok_cases h1 with hp | ⟨hp, hd⟩
      · rcases strictStep5 h with h5 | ⟨h5, hw⟩
        · exact Or.inl (by simp [strict4, hp, h5])
        · exact Or.inr ⟨by simp [strict4, hp, h5], hw⟩
      · subst hd
        rw [show chain5 (.list [.dict []]) = Except.ok (PyVal.str "NA") from rfl] at h
        exact Or.inr ⟨by simp [strict4, hp], (Except.ok.inj h).symm⟩

theorem strictStep3 {x w : PyVal} (h : chain3 x = .ok w) :
    strict3 x = Option.some w ∨ (strict3 x = Option.none ∧ w = .str "NA") := by
  unfold chain3 at h
  cases h1 : pyIndex x 0 with
  | error e => rw [h1] at h; simp at h
  | ok y =>
      rw [h1, ok_bind] at h
      rcases strictStep4 h with h4 | ⟨h4, hw⟩
      · exact Or.inl (by simp [strict3, pyIndex_ok_sIdx h1, h4])
      · exact Or.inr ⟨by simp [strict3, pyIndex_ok_sIdx h1, h4], hw⟩

theorem strictStep2 {x w : PyVal} (h : chain2 x = .ok w) :
    strict2 x = Option.some w ∨ (strict2 x = Option.none ∧ w = .str "NA") := by
  unfold chain2 at h
  cases h1 : pyGetD x "placements_with_allele" (.list [.dict []]) with
  | error e => rw [h1] at h; simp at h
  | ok y =>
      rw [h1, ok_bind] at h
      rcases pyGetD_ok_cases h1 with hp | ⟨hp, hd⟩
      · rcases strictStep3 h with h3 | ⟨h3, hw⟩
        · exact Or.inl (by simp [strict2, hp, h3])
        · exact Or.inr ⟨by simp [strict2, hp, h3], hw⟩
      · subst hd
        rw [show chain3 (.list [.dict []]) = Except.ok (PyVal.str "NA") from rfl] at h
        exact Or.inr ⟨by simp [strict2, hp], (Except.ok.inj h).symm⟩

/-- Success of the defaulted NCBI navigation agrees with the strict path when
every level is present, and yields the placeholder `"NA"` when some level of
the path is absent. -/
theorem ncbiGeneChain_strict {data w : PyVal} (h : ncbiGeneChain data = .ok w) :
    ncbiStrict data = Option.some w ∨ (ncbiStrict data = Option.none ∧ w = .str "NA") := by
  unfold ncbiGeneChain at h
  cases h1 : pyGetD data "primary_snapshot_data" (.dict []) with
  | error e => rw [h1] at h; simp at h
  | ok y =>
      rw [h1, ok_bind] at h
      rcases pyGetD_ok_cases h1 with hp | ⟨hp, hd⟩
      · rcases strictStep2 h with h2 | ⟨h2, hw⟩
        · exact Or.inl (by simp [ncbiStrict, hp, h2])
        · exact Or.inr ⟨by simp [ncbiStrict, hp, h2], hw⟩
      · subst hd
        rw [show chain2 (.dict []) = Except.ok (PyVal.str "NA") from rfl] at h
        exact Or.inr ⟨by simp [ncbiStrict, hp], (Except.ok.inj h).symm⟩

theorem dGet_none_any {m : List (String × PyVal)} {k : String}
    (h : dGet m k = Option.none) : m.any (fun p => p.1 == k) = false := by
  induction m with
  | nil => rfl
  | cons p rest ih =>
      unfold dGet at h
      by_cases hk : p.1 = k
      · rw [if_pos hk] at h; cases h
      · rw [if_neg hk] at h
        simp [List.any_cons, ih h, hk]

theorem dGet_some_any {m : List (String × PyVal)} {k : String} {x : PyVal}
    (h : dGet m k = Option.some x) : m.any (fun p => p.1 == k) = true := by
  induction m with
  | nil => cases h
  | cons p rest ih =>
      unfold dGet at h
      by_cases hk : p.1 = k
      · simp [List.any_cons, hk]
      · rw [if_neg hk] at h
        simp [List.any_cons, ih h]

theorem tryNCBI_shape {v : VariantRecord} {o : HttpOutcome} {r : AnnotationRecord}
    (h : tryNCBI v o = Option.some r) : ∃ g, r = ncbiRecord v g := by
  cases o with
  | netError => cases h
  | response s body =>
      by_cases hs : s = 200
      · subst hs
        cases body with
        | none => simp [tryNCBI] at h
        | some data =>
            cases hc : ncbiGeneChain data with
            | ok g =>
                simp [tryNCBI, hc] at h
                exact ⟨g, h.symm⟩
            | error e => simp [tryNCBI, hc] at h
      · simp [tryNCBI, hs] at h

theorem tryMV_shape {v : VariantRecord} {o : HttpOutcome} {r : AnnotationRecord}
    (h : tryMV v o = Option.some r) : ∃ p, r = mvRecord v p := by
  cases o with
  | netError => cases h
  | response s body =>
      by_cases hs : s = 200
      · subst hs
        cases body with
        | none => simp [tryMV] at h
        | some data =>
            cases hc : mvPayload data with
            | ok p =>
                simp [tryMV, hc] at h
                exact ⟨p, h.symm⟩
            | error e => simp [tryMV, hc] at h
      · simp [tryMV, hs] at h

theorem tryEns_shape {v : VariantRecord} {o : HttpOutcome} {r : AnnotationRecord}
    (h : tryEns v o = Option.some r) : ∃ g, r = ensRecord v g := by
  cases o with
  | netError => cases h
  | response s body =>
      by_cases hs : s = 200
      · subst hs
        cases body with
        | none => simp [tryEns] at h
        | some data =>
            cases hc : ensGene data with
            | ok g =>
                simp [tryEns, hc] at h
                exact ⟨g, h.symm⟩
            | error e => simp [tryEns, hc] at h
      · simp [tryEns, hs] at h

/-- The four mutually exclusive ways a resolution can go, following the
textual order of the fallback blocks. -/
theorem annotate_branch_cases (v : VariantRecord) (env : ResolverEnv) :
    (∃ r, tryNCBI v env.ncbi = Option.some r ∧ annotateRun v env = (r, ["NCBI"]))
  ∨ (tryNCBI v env.ncbi = Option.none ∧ ∃ r, tryMV v env.mv = Option.some r ∧
      annotateRun v env = (r, ["NCBI", "MyVariant.info"]))
  ∨ (tryNCBI v env.ncbi = Option.none ∧ tryMV v env.mv = Option.none ∧
      ∃ r, tryEns v env.ens = Option.some r ∧
      annotateRun v env = (r, ["NCBI", "MyVariant.info", "Ensembl"]))
  ∨ (tryNCBI v env.ncbi = Option.none ∧ tryMV v env.mv = Option.none ∧
      tryEns v env.ens = Option.none ∧
      annotateRun v env = (ucscRecord v, ["NCBI", "MyVariant.info", "Ensembl"])) := by
  unfold annotateRun
  cases h1 : tryNCBI v env.ncbi with
  | some r => exact Or.inl ⟨r, rfl, rfl⟩
  | none =>
      cases h2 : tryMV v env.mv with
      | some r => exact Or.inr (Or.inl ⟨rfl, r, rfl, rfl⟩)
      | none =>
          cases h3 : tryEns v env.ens with
          | some r => exact Or.inr (Or.inr (Or.inl ⟨rfl, rfl, r, rfl, rfl⟩))
          | none => exact Or.inr (Or.inr (Or.inr ⟨rfl, rfl, rfl, rfl⟩))

theorem lineRecord_fields {l : String} {r : VariantRecord} (h : lineRecord l = .ok r) :
    r.chrom = (lineFields l).getD 0 "" ∧ pyInt ((lineFields l).getD 1 "") = .ok r.pos ∧
    r.rsid = (lineFields l).getD 2 "" ∧ r.ref = (lineFields l).getD 3 "" ∧
    r.alt = (lineFields l).getD 4 "" := by
  unfold lineRecord at h
  cases hp : pyInt ((lineFields l).getD 1 "") with
  | error e => rw [hp] at h; simp at h
  | ok p =>
      rw [hp, ok_bind] at h
      obtain rfl := Except.ok.inj h
      exact ⟨rfl, rfl, rfl, rfl, rfl⟩

theorem extractLines_forall₂ : ∀ {lines : List String} {rs : List VariantRecord},
    extractLines lines = .ok rs →
    List.Forall₂ (fun l r => lineRecord l = .ok r) (lines.filter keepLine) rs := by
  intro lines
  induction lines with
  | nil =>
      intro rs h
      have hrs : [] = rs := Except.ok.inj h
      subst hrs
      simp
  | cons l ls ih =>
      intro rs h
      unfold extractLines at h
      by_cases hk : keepLine l = true
      · rw [if_pos hk] at h
        cases hr : lineRecord l with
        | error e => rw [hr] at h; simp at h
        | ok r =>
            rw [hr, ok_bind] at h
            cases ht : extractLines ls with
            | error e => rw [ht] at h; simp at h
            | ok rs' =>
                rw [ht, ok_bind] at h
                obtain rfl := Except.ok.inj h
                have hf : (l :: ls).filter keepLine = l :: ls.filter keepLine := by
                  simp [List.filter_cons, hk]
                rw [hf]
                exact List.Forall₂.cons hr (ih ht)
      · rw [if_neg hk] at h
        have hf : (l :: ls).filter keepLine = ls.filter keepLine := by
          simp [List.filter_cons, hk]
        rw [hf]
        exact ih h

theorem extractLines_ok_of : ∀ {lines : List String},
    (∀ l ∈ lines.filter keepLine, lineOk l = true) →
    ∃ rs, extractLines lines = .ok rs := by
  intro lines
  induction lines with
  | nil => intro _; exact ⟨[], rfl⟩
  | cons l ls ih =>
      intro h
      by_cases hk : keepLine l = true
      · have hl : lineOk l = true := h l (by simp [List.filter_cons, hk])
        unfold lineOk at hl
        cases hr : lineRecord l with
        | error e => rw [hr] at hl; cases hl
        | ok r =>
            obtain ⟨rs, hrs⟩ := ih (fun x hx => h x (by simp [List.filter_cons, hk, hx]))
            refine ⟨r :: rs, ?_⟩
            unfold extractLines
            rw [if_pos hk, hr, ok_bind, hrs, ok_bind]
      · obtain ⟨rs, hrs⟩ := ih (fun x hx => h x (by simp [List.filter_cons, hk, hx]))
        refine ⟨rs, ?_⟩
        unfold extractLines
        rw [if_neg hk]
        exact hrs

theorem forall₂_mem_right {α β : Type} {R : α → β → Prop} :
    ∀ {as : List α} {bs : List β}, List.Forall₂ R as bs →
      ∀ {b}, b ∈ bs → ∃ a ∈ as, R a b := by
  intro as bs h
  induction h with
  | nil => intro b hb; cases hb
  | @cons a b as' bs' hab _ ih =>
      intro c hc
      rcases List.mem_cons.mp hc with rfl | hc'
      · exact ⟨a, List.mem_cons_self a as', hab⟩
      · obtain ⟨a', ha', hr⟩ := ih hc'
        exact ⟨a', List.mem_cons_of_mem _ ha', hr⟩

@[simp] theorem pyGetD_dict (m : List (String × PyVal)) (k : String) (d : PyVal) :
    pyGetD (.dict m) k d = .ok ((dGet m k).getD d) := rfl

@[simp] theorem dGet_nil (k : String) : dGet [] k = Option.none := rfl

@[simp] theorem pyIndex_cons0 (x : PyVal) (xs : List PyVal) :
    pyIndex (.list (x :: xs)) 0 = .ok x := rfl

@[simp] theorem pyIndex_list_nil (i : Nat) : pyIndex (.list []) i = .error () := rfl

@[simp] theorem pyContains_dict (m : List (String × PyVal)) (k : String) :
    pyContains (.dict m) k = .ok (m.any (fun q => q.1 == k)) := rfl

/-- On a 200-status dict body whose `gene` and `clinvar` values have navigable
shapes, the MyVariant field computation reduces to the gene symbol, the
defaulted clinical significance, the condition expression and the link
expression applied to the `clinvar` dict. -/
theorem mvPayload_split {m cm : List (String × PyVal)} {g : PyVal}
    (hg : mvGeneSym m = Option.some g) (hc : mvClinical m = Option.some cm) :
    mvPayload (.dict m) = (do
      let condition ← mvConditionV (.dict cm)
      let link ← mvLinkV (.dict cm)
      Except.ok (g, (dGet cm "clinical_significance").getD (.str "Not available"),
        condition, link)) := by
  unfold mvGeneSym at hg
  unfold mvClinical at hc
  rcases h1 : dGet m "gene" with _ | gv <;> rw [h1] at hg
  · obtain rfl := Option.some.inj hg
    rcases h2 : dGet m "clinvar" with _ | cv <;> rw [h2] at hc
    · obtain rfl := Option.some.inj hc
      simp [mvPayload, h1, h2]
    · cases cv <;> simp at hc
      case dict cm' =>
        subst hc
        simp [mvPayload, h1, h2]
  · cases gv <;> simp at hg
    case dict gm =>
      subst hg
      rcases h2 : dGet m "clinvar" with _ | cv <;> rw [h2] at hc
      · obtain rfl := Option.some.inj hc
        simp [mvPayload, h1, h2]
      · cases cv <;> simp at hc
        case dict cm' =>
          subst hc
          simp [mvPayload, h1, h2]

theorem mvConditionV_absent {cm : List (String × PyVal)}
    (h : dGet cm "trait" = Option.none) :
    mvConditionV (.dict cm) = .ok (.str "Unknown") := by
  simp [mvConditionV, h, PyVal.isList]

theorem mvConditionV_cons {cm : List (String × PyVal)} {t : PyVal} {ts : List PyVal}
    (h : dGet cm "trait" = Option.some (.list (t :: ts))) :
    mvConditionV (.dict cm) = .ok t := by
  simp [mvConditionV, h, PyVal.isList]

theorem mvConditionV_nil {cm : List (String × PyVal)}
    (h : dGet cm "trait" = Option.some (.list [])) :
    mvConditionV (.dict cm) = .error () := by
  simp [mvConditionV, h, PyVal.isList]

theorem mvConditionV_nonlist {cm : List (String × PyVal)} {tv : PyVal}
    (h : dGet cm "trait" = Option.some tv) (hn : tv.isList = false) :
    mvConditionV (.dict cm) = .ok (.str "Unknown") := by
  simp [mvConditionV, h, hn]

theorem mvLinkV_absent {cm : List (String × PyVal)}
    (h : dGet cm "rcv" = Option.none) : mvLinkV (.dict cm) = .ok "" := by
  simp [mvLinkV, dGet_none_any h]

theorem mvLinkV_dictHead {cm rm : List (String × PyVal)} {rs : List PyVal}
    (h : dGet cm "rcv" = Option.some (.list (.dict rm :: rs))) :
    mvLinkV (.dict cm) = .ok ("https://www.ncbi.nlm.nih.gov/clinvar/variation/"
      ++ pyStrOf ((dGet rm "accession").getD (.str ""))) := by
  simp [mvLinkV, dGet_some_any h, h]

theorem mvLinkV_nil {cm : List (String × PyVal)}
    (h : dGet cm "rcv" = Option.some (.list [])) : mvLinkV (.dict cm) = .error () := by
  simp [mvLinkV, dGet_some_any h, h]

/-! ## Claim theorems -/

/-- C1: for every well-formed `VariantRecord` and every behaviour of the three
network clients — including every combination of them reporting Unavailable
through a network exception, a non-success status, or a failure navigating the
JSON response — `annotate_variant` returns exactly one `AnnotationRecord`,
produced by one of the four clients; its result is never an error. -/
theorem annotate_variant_total (v : VariantRecord) (env : ResolverEnv) :
    ∃ r, annotate_variant v env = r ∧
      (r.source = "NCBI" ∨ r.source = "MyVariant.info" ∨ r.source = "Ensembl" ∨
        r.source = "UCSC") := by
  refine ⟨annotate_variant v env, rfl, ?_⟩
  rcases annotate_branch_cases v env with ⟨r, h1, h2⟩ | ⟨h0, r, h1, h2⟩ |
    ⟨h0, h0', r, h1, h2⟩ | ⟨h0, h0', h0'', h2⟩
  · obtain ⟨g, rfl⟩ := tryNCBI_shape h1
    exact Or.inl (by simp [annotate_variant, h2, ncbiRecord])
  · obtain ⟨p, rfl⟩ := tryMV_shape h1
    exact Or.inr (Or.inl (by simp [annotate_variant, h2, mvRecord]))
  · obtain ⟨g, rfl⟩ := tryEns_shape h1
    exact Or.inr (Or.inr (Or.inl (by simp [annotate_variant, h2, ensRecord])))
  · exact Or.inr (Or.inr (Or.inr (by simp [annotate_variant, h2, ucscRecord])))

/-- C8: every record the resolver returns carries all nine fields (it is built
as a full `AnnotationRecord` in every branch), and its `source` names exactly
the client whose branch produced the non-failure result. -/
theorem annotate_variant_source_faithful (v : VariantRecord) (env : ResolverEnv) :
    (tryNCBI v env.ncbi = Option.some (annotate_variant v env) ∧
      (annotate_variant v env).source = "NCBI")
  ∨ (tryNCBI v env.ncbi = Option.none ∧
      tryMV v env.mv = Option.some (annotate_variant v env) ∧
      (annotate_variant v env).source = "MyVariant.info")
  ∨ (tryNCBI v env.ncbi = Option.none ∧ tryMV v env.mv = Option.none ∧
      tryEns v env.ens = Option.some (annotate_variant v env) ∧
      (annotate_variant v env).source = "Ensembl")
  ∨ (tryNCBI v env.ncbi = Option.none ∧ tryMV v env.mv = Option.none ∧
      tryEns v env.ens = Option.none ∧ annotate_variant v env = ucscRecord v ∧
      (annotate_variant v env).source = "UCSC") := by
  rcases annotate_branch_cases v env with ⟨r, h1, h2⟩ | ⟨h0, r, h1, h2⟩ |
    ⟨h0, h0', r, h1, h2⟩ | ⟨h0, h0', h0'', h2⟩
  · have ha : annotate_variant v env = r := by simp [annotate_variant, h2]
    obtain ⟨g, rfl⟩ := tryNCBI_shape h1
    exact Or.inl ⟨by rw [ha]; exact h1, by rw [ha]; rfl⟩
  · have ha : annotate_variant v env = r := by simp [annotate_variant, h2]
    obtain ⟨p, rfl⟩ := tryMV_shape h1
    exact Or.inr (Or.inl ⟨h0, by rw [ha]; exact h1, by rw [ha]; rfl⟩)
  · have ha : annotate_variant v env = r := by simp [annotate_variant, h2]
    obtain ⟨g, rfl⟩ := tryEns_shape h1
    exact Or.inr (Or.inr (Or.inl ⟨h0, h0', by rw [ha]; exact h1, by rw [ha]; rfl⟩))
  · have ha : annotate_variant v env = ucscRecord v := by simp [annotate_variant, h2]
    exact Or.inr (Or.inr (Or.inr ⟨h0, h0', h0'', ha, by rw [ha]; rfl⟩))

/-- C10: whichever client branch produces the result, the returned record's
chr, pos, ref and alt equal the input record's chromosome, position, reference
and alternate alleles unchanged. -/
theorem annotate_variant_preserves_coords (v : VariantRecord) (env : ResolverEnv) :
    (annotate_variant v env).chr = v.chrom ∧ (annotate_variant v env).pos = v.pos ∧
    (annotate_variant v env).ref = v.ref ∧ (annotate_variant v env).alt = v.alt := by
  rcases annotate_branch_cases v env with ⟨r, h1, h2⟩ | ⟨h0, r, h1, h2⟩ |
    ⟨h0, h0', r, h1, h2⟩ | ⟨h0, h0', h0'', h2⟩
  · have ha : annotate_variant v env = r := by simp [annotate_variant, h2]
    obtain ⟨g, rfl⟩ := tryNCBI_shape h1
    rw [ha]; exact ⟨rfl, rfl, rfl, rfl⟩
  · have ha : annotate_variant v env = r := by simp [annotate_variant, h2]
    obtain ⟨p, rfl⟩ := tryMV_shape h1
    rw [ha]; exact ⟨rfl, rfl, rfl, rfl⟩
  · have ha : annotate_variant v env = r := by simp [annotate_variant, h2]
    obtain ⟨g, rfl⟩ := tryEns_shape h1
    rw [ha]; exact ⟨rfl, rfl, rfl, rfl⟩
  · have ha : annotate_variant v env = ucscRecord v := by simp [annotate_variant, h2]
    rw [ha]; exact ⟨rfl, rfl, rfl, rfl⟩

/-- C2: if the NCBI client succeeds, its record (with source `"NCBI"`) is the
resolver's result, only NCBI is consulted, and the result does not depend on
the lower-priority clients' behaviour (so no field of theirs appears in it). -/
theorem annotate_variant_ncbi_priority (v : VariantRecord) (env : ResolverEnv)
    (r : AnnotationRecord) (h : tryNCBI v env.ncbi = Option.some r) :
    annotate_variant v env = r ∧ r.source = "NCBI" ∧ consulted v env = ["NCBI"] ∧
    ∀ env2 : ResolverEnv, env2.ncbi = env.ncbi → annotate_variant v env2 = r := by
  have hrun : annotateRun v env = (r, ["NCBI"]) := by unfold annotateRun; rw [h]
  obtain ⟨g, rfl⟩ := tryNCBI_shape h
  refine ⟨by simp [annotate_variant, hrun], rfl, by simp [consulted, hrun], ?_⟩
  intro env2 he
  have h2 : tryNCBI v env2.ncbi = Option.some (ncbiRecord v g) := by rw [he]; exact h
  have hrun2 : annotateRun v env2 = (ncbiRecord v g, ["NCBI"]) := by
    unfold annotateRun; rw [h2]
  simp [annotate_variant, hrun2]

/-- Witness instantiating `annotate_variant_ncbi_priority` at a concrete
variant and environment in which NCBI succeeds. -/
theorem annotate_variant_ncbi_priority_witness :
    tryNCBI vSample envNCBIOnly.ncbi = Option.some (ncbiRecord vSample (.str "NA"))
    ∧ (annotate_variant vSample envNCBIOnly = ncbiRecord vSample (.str "NA")
      ∧ (ncbiRecord vSample (.str "NA")).source = "NCBI"
      ∧ consulted vSample envNCBIOnly = ["NCBI"]
      ∧ ∀ env2 : ResolverEnv, env2.ncbi = envNCBIOnly.ncbi →
          annotate_variant vSample env2 = ncbiRecord vSample (.str "NA")) :=
  ⟨rfl, annotate_variant_ncbi_priority vSample envNCBIOnly
    (ncbiRecord vSample (.str "NA")) rfl⟩

/-- C3: when NCBI, MyVariant and Ensembl all report Unavailable, the resolver
returns the synthesized UCSC record: source `"UCSC"`, gene `"Unknown"`,
clinical significance `"Not available"`, condition `"No data"`, and a
reference link containing the record's chromosome and position. -/
theorem annotate_variant_ucsc_terminal (v : VariantRecord) (env : ResolverEnv)
    (h1 : tryNCBI v env.ncbi = Option.none) (h2 : tryMV v env.mv = Option.none)
    (h3 : tryEns v env.ens = Option.none) :
    annotate_variant v env = ucscRecord v
    ∧ (ucscRecord v).source = "UCSC"
    ∧ (ucscRecord v).gene = .str "Unknown"
    ∧ (ucscRecord v).clinical_significance = .str "Not available"
    ∧ (ucscRecord v).condition = .str "No data"
    ∧ (∃ s1 s2, (ucscRecord v).link = s1 ++ v.chrom ++ s2)
    ∧ (∃ s3 s4, (ucscRecord v).link = s3 ++ toString v.pos ++ s4) := by
  have hrun : annotateRun v env = (ucscRecord v, ["NCBI", "MyVariant.info", "Ensembl"]) := by
    unfold annotateRun; rw [h1, h2, h3]
  refine ⟨by simp [annotate_variant, hrun], rfl, rfl, rfl, rfl, ?_, ?_⟩
  · exact ⟨"https://genome.ucsc.edu/cgi-bin/hgTracks?db=hg38&position=chr",
      ":" ++ toString v.pos, by simp [ucscRecord, String.append_assoc]⟩
  · exact ⟨"https://genome.ucsc.edu/cgi-bin/hgTracks?db=hg38&position=chr"
      ++ v.chrom ++ ":", "", by simp [ucscRecord, String.append_assoc]⟩

/-- Witness instantiating `annotate_variant_ucsc_terminal` at a concrete
variant with all three services unreachable. -/
theorem annotate_variant_ucsc_terminal_witness :
    annotate_variant vSample envAllFail = ucscRecord vSample
    ∧ (ucscRecord vSample).source = "UCSC"
    ∧ (ucscRecord vSample).gene = .str "Unknown"
    ∧ (ucscRecord vSample).clinical_significance = .str "Not available"
    ∧ (ucscRecord vSample).condition = .str "No data"
    ∧ (∃ s1 s2, (ucscRecord vSample).link = s1 ++ vSample.chrom ++ s2)
    ∧ (∃ s3 s4, (ucscRecord vSample).link = s3 ++ toString vSample.pos ++ s4) :=
  annotate_variant_ucsc_terminal vSample envAllFail rfl rfl rfl

/-- C7 (amended): on a 200-status NCBI response whose defaulted navigation
succeeds, the resolver returns the NCBI record: its endpoint link is built
from the id with every occurrence of the substring `"rs"` removed (Python
replace-all, not a prefix strip), its gene is the nested-path value with
`"NA"` substituted when falsy, and equals the strict path value when every
level is present and `"NA"` whenever some level of the path is absent;
clinical significance is `"NA"` and condition is `"From NCBI"`. -/
theorem ncbi_success_mapping (v : VariantRecord) (env : ResolverEnv)
    (data g : PyVal) (h : env.ncbi = .response 200 (Option.some data))
    (hg : ncbiGeneChain data = .ok g) :
    annotate_variant v env = ncbiRecord v g
    ∧ (ncbiRecord v g).gene = pyOr g (.str "NA")
    ∧ (ncbiRecord v g).clinical_significance = .str "NA"
    ∧ (ncbiRecord v g).condition = .str "From NCBI"
    ∧ (ncbiRecord v g).source = "NCBI"
    ∧ (ncbiRecord v g).link =
        "https://api.ncbi.nlm.nih.gov/variation/v0/beta/refsnp/" ++ pyReplace v.rsid "rs" ""
    ∧ (ncbiStrict data = Option.some g ∨ (ncbiStrict data = Option.none ∧ g = .str "NA")) := by
  have ht : tryNCBI v env.ncbi = Option.some (ncbiRecord v g) := by
    rw [h]; simp [tryNCBI, hg]
  have hrun : annotateRun v env = (ncbiRecord v g, ["NCBI"]) := by
    unfold annotateRun; rw [ht]
  exact ⟨by simp [annotate_variant, hrun], rfl, rfl, rfl, rfl, rfl,
    ncbiGeneChain_strict hg⟩

/-- Witness instantiating `ncbi_success_mapping` on the specification's worked
example, where the navigation yields gene `"G"`. -/
theorem ncbi_success_mapping_witness :
    ncbiGeneChain ncbiExampleBody = .ok (.str "G")
    ∧ (annotate_variant vSample envNCBIExample = ncbiRecord vSample (.str "G")
      ∧ (ncbiRecord vSample (.str "G")).gene = pyOr (.str "G") (.str "NA")
      ∧ (ncbiRecord vSample (.str "G")).clinical_significance = .str "NA"
      ∧ (ncbiRecord vSample (.str "G")).condition = .str "From NCBI"
      ∧ (ncbiRecord vSample (.str "G")).source = "NCBI"
      ∧ (ncbiRecord vSample (.str "G")).link =
          "https://api.ncbi.nlm.nih.gov/variation/v0/beta/refsnp/"
            ++ pyReplace vSample.rsid "rs" ""
      ∧ (ncbiStrict ncbiExampleBody = Option.some (.str "G") ∨
          (ncbiStrict ncbiExampleBody = Option.none ∧ (PyVal.str "G") = .str "NA"))) :=
  ⟨rfl, ncbi_success_mapping vSample envNCBIExample ncbiExampleBody (.str "G") rfl rfl⟩

/-- Counterexample to C7 as stated: for the id `"rs1rs2"` the recorded link
removes every `"rs"` (yielding `.../refsnp/12`) rather than only a prefix
(`.../refsnp/1rs2`); and when the full path is present with the falsy value
`""`, the returned gene is `"NA"`, not the path value. -/
theorem ncbi_claim_counterexample :
    ((annotate_variant vRsTwice envNCBIOnly).link
        = "https://api.ncbi.nlm.nih.gov/variation/v0/beta/refsnp/12"
      ∧ (annotate_variant vRsTwice envNCBIOnly).link
        ≠ "https://api.ncbi.nlm.nih.gov/variation/v0/beta/refsnp/1rs2")
    ∧ (ncbiStrict ncbiEmptyBaseBody = Option.some (.str "")
      ∧ (annotate_variant vSample envNCBIEmptyBase).gene = .str "NA"
      ∧ (annotate_variant vSample envNCBIEmptyBase).source = "NCBI") := by
  exact ⟨⟨rfl, by decide⟩, rfl, rfl, rfl⟩

theorem tryMV_payload_ok {v : VariantRecord} {data : PyVal}
    {p : PyVal × PyVal × PyVal × String} (h : mvPayload data = .ok p) :
    tryMV v (.response 200 (Option.some data)) = Option.some (mvRecord v p) := by
  simp [tryMV, h]

theorem tryMV_payload_err {v : VariantRecord} {data : PyVal} {e : Unit}
    (h : mvPayload data = .error e) :
    tryMV v (.response 200 (Option.some data)) = Option.none := by
  simp [tryMV, h]

/-- C6 (amended): on a 200-status MyVariant response whose `gene` and
`clinvar` values are navigable, a returned record has gene from `gene.symbol`
defaulted to `"NA"`, clinical significance from `clinvar.clinical_significance`
defaulted to `"Not available"`, condition `clinvar.trait[0]` when trait is a
non-empty list and `"Unknown"` when trait is absent or not a list, and a link
built from `clinvar.rcv[0].accession` when `rcv` holds a non-empty list headed
by an object, empty when `rcv` is absent; but when trait (or rcv) is present
as an *empty* list the branch raises and the client reports Unavailable. -/
theorem myvariant_field_mapping (v : VariantRecord) (env : ResolverEnv)
    (m cm : List (String × PyVal)) (g : PyVal)
    (hmv : env.mv = .response 200 (Option.some (.dict m)))
    (hg : mvGeneSym m = Option.some g)
    (hc : mvClinical m = Option.some cm) :
    (∀ r, tryMV v env.mv = Option.some r →
        r.gene = g
      ∧ r.clinical_significance =
          (dGet cm "clinical_significance").getD (.str "Not available")
      ∧ (∀ t ts, dGet cm "trait" = Option.some (.list (t :: ts)) → r.condition = t)
      ∧ ((dGet cm "trait" = Option.none ∨
            ∃ tv, dGet cm "trait" = Option.some tv ∧ tv.isList = false) →
          r.condition = .str "Unknown")
      ∧ (dGet cm "rcv" = Option.none → r.link = "")
      ∧ (∀ rm rs, dGet cm "rcv" = Option.some (.list (.dict rm :: rs)) →
          r.link = "https://www.ncbi.nlm.nih.gov/clinvar/variation/"
            ++ pyStrOf ((dGet rm "accession").getD (.str "")))
      ∧ r.source = "MyVariant.info"
      ∧ (tryNCBI v env.ncbi = Option.none → annotate_variant v env = r))
    ∧ (dGet cm "trait" = Option.some (.list []) → tryMV v env.mv = Option.none)
    ∧ (dGet cm "rcv" = Option.some (.list []) → tryMV v env.mv = Option.none) := by
  have hsplit := mvPayload_split hg hc
  refine ⟨?_, ?_, ?_⟩
  · intro r hr
    rw [hmv] at hr
    cases hcond : mvConditionV (.dict cm) with
    | error e =>
        have hp : mvPayload (.dict m) = .error e := by rw [hsplit, hcond]; simp
        rw [tryMV_payload_err hp] at hr
        cases hr
    | ok c =>
        cases hlink : mvLinkV (.dict cm) with
        | error e =>
            have hp : mvPayload (.dict m) = .error e := by
              rw [hsplit, hcond, ok_bind, hlink]; simp
            rw [tryMV_payload_err hp] at hr
            cases hr
        | ok lk =>
            have hp : mvPayload (.dict m) = .ok
                (g, (dGet cm "clinical_significance").getD (.str "Not available"),
                  c, lk) := by
              rw [hsplit, hcond, ok_bind, hlink]; simp
            rw [tryMV_payload_ok hp] at hr
            obtain rfl := (Option.some.inj hr).symm
            refine ⟨rfl, rfl, ?_, ?_, ?_, ?_, rfl, ?_⟩
            · intro t ts ht
              exact Except.ok.inj (hcond.symm.trans (mvConditionV_cons ht))
            · intro hcase
              rcases hcase with ht | ⟨tv, ht, hn⟩
              · exact Except.ok.inj (hcond.symm.trans (mvConditionV_absent ht))
              · exact Except.ok.inj (hcond.symm.trans (mvConditionV_nonlist ht hn))
            · intro hrv
              exact Except.ok.inj (hlink.symm.trans (mvLinkV_absent hrv))
            · intro rm rs hrv
              exact Except.ok.inj (hlink.symm.trans (mvLinkV_dictHead hrv))
            · intro hn
              have hsome : tryMV v env.mv = Option.some (mvRecord v
                  (g, (dGet cm "clinical_significance").getD (.str "Not available"),
                    c, lk)) := by rw [hmv]; exact tryMV_payload_ok hp
              have hrun : annotateRun v env = (mvRecord v
                  (g, (dGet cm "clinical_significance").getD (.str "Not available"),
                    c, lk), ["NCBI", "MyVariant.info"]) := by
                unfold annotateRun; rw [hn, hsome]
              simp [annotate_variant, hrun]
  · intro ht
    have hp : mvPayload (.dict m) = .error () := by
      rw [hsplit, mvConditionV_nil ht]; simp
    rw [hmv]
    exact tryMV_payload_err hp
  · intro hrv
    cases hcond : mvConditionV (.dict cm) with
    | error e =>
        have hp : mvPayload (.dict m) = .error e := by rw [hsplit, hcond]; simp
        rw [hmv]
        exact tryMV_payload_err hp
    | ok c =>
        have hp : mvPayload (.dict m) = .error () := by
          rw [hsplit, hcond, ok_bind, mvLinkV_nil hrv]; simp
        rw [hmv]
        exact tryMV_payload_err hp

/-- Witness instantiating `myvariant_field_mapping` on the specification's
worked MyVariant example. -/
theorem myvariant_field_mapping_witness :
    mvGeneSym mvExampleEntries = Option.some (.str "BRCA1")
    ∧ mvClinical mvExampleEntries = Option.some mvClinvarEntries
    ∧ ((∀ r, tryMV vSample envMVExample.mv = Option.some r →
          r.gene = .str "BRCA1"
        ∧ r.clinical_significance =
            (dGet mvClinvarEntries "clinical_significance").getD (.str "Not available")
        ∧ (∀ t ts, dGet mvClinvarEntries "trait" = Option.some (.list (t :: ts)) →
            r.condition = t)
        ∧ ((dGet mvClinvarEntries "trait" = Option.none ∨
              ∃ tv, dGet mvClinvarEntries "trait" = Option.some tv ∧ tv.isList = false) →
            r.condition = .str "Unknown")
        ∧ (dGet mvClinvarEntries "rcv" = Option.none → r.link = "")
        ∧ (∀ rm rs, dGet mvClinvarEntries "rcv" = Option.some (.list (.dict rm :: rs)) →
            r.link = "https://www.ncbi.nlm.nih.gov/clinvar/variation/"
              ++ pyStrOf ((dGet rm "accession").getD (.str "")))
        ∧ r.source = "MyVariant.info"
        ∧ (tryNCBI vSample envMVExample.ncbi = Option.none →
            annotate_variant vSample envMVExample = r))
      ∧ (dGet mvClinvarEntries "trait" = Option.some (.list []) →
          tryMV vSample envMVExample.mv = Option.none)
      ∧ (dGet mvClinvarEntries "rcv" = Option.some (.list []) →
          tryMV vSample envMVExample.mv = Option.none)) :=
  ⟨rfl, rfl, myvariant_field_mapping vSample envMVExample mvExampleEntries
    mvClinvarEntries (.str "BRCA1") rfl rfl rfl⟩

/-- Counterexample to C6 as stated: on a 200-status response with
`clinvar.trait = []` the claim demands a MyVariant record with condition
`"Unknown"`, but the `[0]` indexing raises, the client reports Unavailable and
resolution falls through to the UCSC record. -/
theorem myvariant_claim_counterexample :
    tryMV vSample envMVEmptyTrait.mv = Option.none
    ∧ annotate_variant vSample envMVEmptyTrait = ucscRecord vSample
    ∧ (ucscRecord vSample).source = "UCSC"
    ∧ (ucscRecord vSample).source ≠ "MyVariant.info" :=
  ⟨rfl, rfl, rfl, by decide⟩

/-- C4 (amended): on any input text whose retained lines (not starting with
`'#'`, at least 5 tab fields) all carry a position field `int(...)` accepts,
the extractor produces, in file order, exactly one record per retained line
whose five fields are the first five tab fields of that line (extras ignored);
`'#'`-lines and lines with fewer than 5 tab fields contribute no record. -/
theorem extract_variants_wellformed_lines (text : String)
    (h : ∀ l ∈ (pySplitCh text '\n').filter keepLine, lineOk l = true) :
    (∃ rs, extract_variants text = .ok rs
      ∧ List.Forall₂ (fun l r => lineRecord l = .ok r)
          ((pySplitCh text '\n').filter keepLine) rs)
    ∧ (∀ l r, lineRecord l = .ok r →
        r.chrom = (lineFields l).getD 0 "" ∧ pyInt ((lineFields l).getD 1 "") = .ok r.pos
        ∧ r.rsid = (lineFields l).getD 2 "" ∧ r.ref = (lineFields l).getD 3 ""
        ∧ r.alt = (lineFields l).getD 4 "")
    ∧ (∀ l, pyStartsWith l '#' = true → keepLine l = false)
    ∧ (∀ l, (lineFields l).length < 5 → keepLine l = false) := by
  refine ⟨?_, fun l r hr => lineRecord_fields hr, ?_, ?_⟩
  · obtain ⟨rs, hrs⟩ := extractLines_ok_of h
    exact ⟨rs, hrs, extractLines_forall₂ hrs⟩
  · intro l hl
    simp [keepLine, hl]
  · intro l hl
    have hn : ¬ (5 ≤ (lineFields l).length) := Nat.not_le.mpr hl
    simp [keepLine, hn]

/-- Witness instantiating `extract_variants_wellformed_lines` on a text with a
metadata line, a 6-field data line and a 4-field line. -/
theorem extract_variants_wellformed_lines_witness :
    (∀ l ∈ (pySplitCh "#h\nchr1\t12345\trs123\tA\tG\textra\na\tb\tc\td" '\n').filter
        keepLine, lineOk l = true)
    ∧ ((∃ rs, extract_variants "#h\nchr1\t12345\trs123\tA\tG\textra\na\tb\tc\td" = .ok rs
        ∧ List.Forall₂ (fun l r => lineRecord l = .ok r)
            ((pySplitCh "#h\nchr1\t12345\trs123\tA\tG\textra\na\tb\tc\td" '\n').filter
              keepLine) rs)
      ∧ (∀ l r, lineRecord l = .ok r →
          r.chrom = (lineFields l).getD 0 "" ∧ pyInt ((lineFields l).getD 1 "") = .ok r.pos
          ∧ r.rsid = (lineFields l).getD 2 "" ∧ r.ref = (lineFields l).getD 3 ""
          ∧ r.alt = (lineFields l).getD 4 "")
      ∧ (∀ l, pyStartsWith l '#' = true → keepLine l = false)
      ∧ (∀ l, (lineFields l).length < 5 → keepLine l = false)) :=
  ⟨by decide, extract_variants_wellformed_lines
    "#h\nchr1\t12345\trs123\tA\tG\textra\na\tb\tc\td" (by decide)⟩

/-- Counterexample to C4 as stated: the line `"a\tx\tb\tc\td"` is not a
metadata line and has 5 tab fields, so the claim requires a record for it, but
`int("x")` raises and extraction returns an error, producing no record list at
all. -/
theorem extract_variants_claim_counterexample :
    keepLine "a\tx\tb\tc\td" = true
    ∧ extract_variants "a\tx\tb\tc\td" = Except.error () :=
  ⟨by decide, rfl⟩

/-- C5 (amended): a retained line whose position field is non-numeric makes
the whole extraction fail: the `ValueError` propagates and no record of any
line — earlier or later — is returned.  Extraction errors are not local to one
line. -/
theorem extract_abort_on_malformed (pre post : List String) (line : String)
    (hk : keepLine line = true)
    (hbad : pyInt ((lineFields line).getD 1 "") = .error ()) :
    extractLines (pre ++ line :: post) = .error () := by
  induction pre with
  | nil =>
      rw [List.nil_append]
      simp only [extractLines]
      rw [if_pos hk]
      unfold lineRecord
      rw [hbad]
      rfl
  | cons p ps ih =>
      rw [List.cons_append]
      simp only [extractLines]
      by_cases hp : keepLine p = true
      · rw [if_pos hp]
        cases hr : lineRecord p with
        | error e => simp
        | ok r => simp [ih]
      · rw [if_neg hp]
        exact ih

/-- Witness instantiating `extract_abort_on_malformed`: the malformed line
sits between two well-formed lines and the whole run errors. -/
theorem extract_abort_on_malformed_witness :
    keepLine "a\tx\tb\tc\td" = true
    ∧ pyInt ((lineFields "a\tx\tb\tc\td").getD 1 "") = .error ()
    ∧ extractLines (["chr1\t1\trs\tA\tG"] ++ "a\tx\tb\tc\td" :: ["chr2\t2\trs2\tC\tT"])
        = .error () :=
  ⟨by decide, rfl, extract_abort_on_malformed ["chr1\t1\trs\tA\tG"] ["chr2\t2\trs2\tC\tT"]
    "a\tx\tb\tc\td" (by decide) rfl⟩

/-- Counterexample to C5 as stated: the second line alone extracts to one
record, but prefixing the malformed line makes the whole extraction error, so
the well-formed line's record is *not* produced. -/
theorem extract_error_not_local_counterexample :
    extract_variants "chr1\t5\trs\tA\tG"
      = Except.ok [{ chrom := "chr1", pos := 5, rsid := "rs", ref := "A", alt := "G" }]
    ∧ extract_variants "a\tx\tb\tc\td\nchr1\t5\trs\tA\tG" = Except.error () :=
  ⟨rfl, rfl⟩

/-- C9 (amended): the extractor copies fields verbatim, so whenever every
retained line of the input has a positive position field and non-empty
chromosome, reference and alternate fields, every record it produces satisfies
the data-model invariant.  (The extractor itself enforces none of this.) -/
theorem extract_variants_invariant_of_good_input (text : String)
    (rs : List VariantRecord) (hok : extract_variants text = .ok rs)
    (hgood : ∀ l ∈ (pySplitCh text '\n').filter keepLine, goodLine l = true) :
    ∀ r ∈ rs, variantInvariant r := by
  intro r hr
  have hf := extractLines_forall₂ hok
  obtain ⟨l, hl, hrec⟩ := forall₂_mem_right hf hr
  have hg := hgood l hl
  obtain ⟨hchrom, hpos, _, href, halt⟩ := lineRecord_fields hrec
  unfold goodLine at hg
  rw [hpos] at hg
  simp only [Bool.and_eq_true, bne_iff_ne, decide_eq_true_eq] at hg
  obtain ⟨⟨⟨h1, h2⟩, h3⟩, h4⟩ := hg
  exact ⟨h1, by rw [hchrom]; exact h2, by rw [href]; exact h3, by rw [halt]; exact h4⟩

/-- Witness instantiating `extract_variants_invariant_of_good_input` on a
single well-formed line. -/
theorem extract_variants_invariant_witness :
    extract_variants "chr1\t12\trs1\tA\tG"
      = Except.ok [{ chrom := "chr1", pos := 12, rsid := "rs1", ref := "A", alt := "G" }]
    ∧ (∀ l ∈ (pySplitCh "chr1\t12\trs1\tA\tG" '\n').filter keepLine, goodLine l = true)
    ∧ ∀ r ∈ [({ chrom := "chr1", pos := 12, rsid := "rs1", ref := "A", alt := "G" } :
        VariantRecord)], variantInvariant r :=
  ⟨rfl, by decide, extract_variants_invariant_of_good_input "chr1\t12\trs1\tA\tG"
    [{ chrom := "chr1", pos := 12, rsid := "rs1", ref := "A", alt := "G" }] rfl (by decide)⟩

/-- Counterexample to C9 as stated: a line with position `0` and an empty
reference allele extracts to a record violating the invariant. -/
theorem extract_variants_invariant_counterexample :
    extract_variants "c\t0\trs\t\tG"
      = Except.ok [{ chrom := "c", pos := 0, rsid := "rs", ref := "", alt := "G" }]
    ∧ ¬ variantInvariant { chrom := "c", pos := 0, rsid := "rs", ref := "", alt := "G" } :=
  ⟨rfl, by unfold variantInvariant; decide⟩

end GeneticTrail
